import Mathlib

/-!
# Verification of the `oauth1-request` signing pipeline

A shallow embedding in Lean 4 of the parts of the `oauth1-request` crate that
the checked claims are about: the percent-encoder, the signing-key writer, the
`Urlencoder` serializer, the generic `Serializer` hook machinery, the
`PLAINTEXT` and `HMAC-SHA256` signature methods, and the `Builder` façade with
its free-function wrappers.  Pure Rust functions become Lean functions;
the streaming serializers become explicit state passing; bytes are `Nat`
values below 256 and machine words are `Nat` values reduced `% 2 ^ 32`.
-/

namespace OAuth1

/-! ## Bytes and UTF-8 -/

/-- UTF-8 encoding of one Unicode scalar value, as a list of bytes
(RFC 3629).  Rust strings are UTF-8, so feeding a `&str` to a byte sink
feeds exactly these bytes. -/
def utf8Char (c : Nat) : List Nat :=
  if c < 0x80 then [c]
  else if c < 0x800 then [0xC0 + c / 64, 0x80 + c % 64]
  else if c < 0x10000 then [0xE0 + c / 4096, 0x80 + (c / 64) % 64, 0x80 + c % 64]
  else [0xF0 + c / 262144, 0x80 + (c / 4096) % 64, 0x80 + (c / 64) % 64, 0x80 + c % 64]

/-- The UTF-8 bytes of a string. -/
def utf8 (s : String) : List Nat :=
  (s.data.map (fun c => utf8Char c.toNat)).flatten

/-! ## Percent-encoder

The crate's `PercentEncode` display wrapper lives in `util.rs`, which is not
among the sources; it is modelled from the spec. -/

/-- Whether a byte is RFC 3986 unreserved: `A-Z`, `a-z`, `0-9`, `-`, `.`,
`_`, `~`. -/
def isUnreserved (b : Nat) : Bool :=
  (65 ≤ b && b ≤ 90) || (97 ≤ b && b ≤ 122) || (48 ≤ b && b ≤ 57) ||
    b == 45 || b == 46 || b == 95 || b == 126

/-- Uppercase hexadecimal digit for a value below 16. -/
def hexDigit (n : Nat) : Char :=
  if n < 10 then Char.ofNat (48 + n) else Char.ofNat (55 + n)

/-- Modelled from the spec: the percent-encoding of one byte by the
`PercentEncode` wrapper of the missing `util.rs` — unreserved bytes pass
through, every other byte becomes `%XX` with uppercase hex digits. -/
def percentEncodeByte (b : Nat) : String :=
  if isUnreserved b then String.mk [Char.ofNat b]
  else String.mk ['%', hexDigit (b / 16), hexDigit (b % 16)]

/-- Modelled from the spec: the percent-encoding of a string, byte-by-byte
over its UTF-8 form (spec §4.1, component C1). -/
def percentEncode (s : String) : String :=
  String.join ((utf8 s).map percentEncodeByte)

/-! ## Signing-key writer

`write_signing_key` is declared in the `signature_method` module root, which
is not among the sources; its callers (`plaintext.rs`, `hmac_sha256.rs`) are.
It is modelled from the spec. -/

/-- Modelled from the spec: `write_signing_key` (spec §4.2, component C2)
performs three writes into the sink: `encode(client_secret)`, `"&"`, and
`encode(token_secret_or_empty)`. -/
def write_signing_key (sink : String) (client_secret : String)
    (token_secret : Option String) : String :=
  sink ++ percentEncode client_secret ++ "&" ++ percentEncode (token_secret.getD "")

/-! ## SHA-256

`hmac_sha256.rs` builds its digest with `hmac_sha256::Hash`, an external
crate's plain SHA-256 hash (FIPS 180-4).  SHA-256 itself is modelled here
from the standard; 32-bit words are `Nat` values reduced `% 2 ^ 32`. -/

/-- Addition of 32-bit words. -/
def add32 (a b : Nat) : Nat := (a + b) % 4294967296

/-- Right rotation of a 32-bit word by `n` places. -/
def rotr32 (n x : Nat) : Nat := ((x >>> n) ||| (x <<< (32 - n))) % 4294967296

/-- The SHA-256 `Ch` function. -/
def shaCh (x y z : Nat) : Nat := (x &&& y) ^^^ ((x ^^^ 4294967295) &&& z)

/-- The SHA-256 `Maj` function. -/
def shaMaj (x y z : Nat) : Nat := (x &&& y) ^^^ (x &&& z) ^^^ (y &&& z)

/-- The SHA-256 `Σ0` function. -/
def bigSigma0 (x : Nat) : Nat := rotr32 2 x ^^^ rotr32 13 x ^^^ rotr32 22 x

/-- The SHA-256 `Σ1` function. -/
def bigSigma1 (x : Nat) : Nat := rotr32 6 x ^^^ rotr32 11 x ^^^ rotr32 25 x

/-- The SHA-256 `σ0` function. -/
def smallSigma0 (x : Nat) : Nat := rotr32 7 x ^^^ rotr32 18 x ^^^ (x >>> 3)

/-- The SHA-256 `σ1` function. -/
def smallSigma1 (x : Nat) : Nat := rotr32 17 x ^^^ rotr32 19 x ^^^ (x >>> 10)

/-- The 64 SHA-256 round constants, in decimal. -/
def shaK : List Nat :=
  [1116352408, 1899447441, 3049323471, 3921009573, 961987163,
   1508970993, 2453635748, 2870763221, 3624381080, 310598401,
   607225278, 1426881987, 1925078388, 2162078206, 2614888103,
   3248222580, 3835390401, 4022224774, 264347078, 604807628,
   770255983, 1249150122, 1555081692, 1996064986, 2554220882,
   2821834349, 2952996808, 3210313671, 3336571891, 3584528711,
   113926993, 338241895, 666307205, 773529912, 1294757372,
   1396182291, 1695183700, 1986661051, 2177026350, 2456956037,
   2730485921, 2820302411, 3259730800, 3345764771, 3516065817,
   3600352804, 4094571909, 275423344, 430227734, 506948616,
   659060556, 883997877, 958139571, 1322822218, 1537002063,
   1747873779, 1955562222, 2024104815, 2227730452, 2361852424,
   2428436474, 2756734187, 3204031479, 3329325298]

/-- The SHA-256 initial hash value, in decimal. -/
def shaH0 : List Nat :=
  [1779033703, 3144134277, 1013904242, 2773480762,
   1359893119, 2600822924, 528734635, 1541459225]

/-- Big-endian 8-byte rendering of a 64-bit value. -/
def be64 (n : Nat) : List Nat :=
  [n / 72057594037927936 % 256, n / 281474976710656 % 256,
   n / 1099511627776 % 256, n / 4294967296 % 256,
   n / 16777216 % 256, n / 65536 % 256, n / 256 % 256, n % 256]

/-- SHA-256 message padding: append `0x80`, zeros up to 56 mod 64, then the
bit length as an 8-byte big-endian integer. -/
def sha256Pad (msg : List Nat) : List Nat :=
  msg ++ [0x80] ++ List.replicate ((119 - msg.length % 64) % 64) 0 ++
    be64 (8 * msg.length)

/-- Groups a byte list into 32-bit big-endian words. -/
def bytesToWords : List Nat → List Nat
  | a :: b :: c :: d :: rest => (((a * 256 + b) * 256 + c) * 256 + d) :: bytesToWords rest
  | _ => []

/-- Extends a SHA-256 message schedule by `n` further words. -/
def shaExtend (w : List Nat) : Nat → List Nat
  | 0 => w
  | n + 1 =>
    let t := add32
      (add32 (smallSigma1 (w.getD (w.length - 2) 0)) (w.getD (w.length - 7) 0))
      (add32 (smallSigma0 (w.getD (w.length - 15) 0)) (w.getD (w.length - 16) 0))
    shaExtend (w ++ [t]) n

/-- One SHA-256 round on the working state `[a,b,c,d,e,f,g,h]`, with `kw`
the round constant paired with the schedule word. -/
def shaRound (st : List Nat) (kw : Nat × Nat) : List Nat :=
  match st with
  | [a, b, c, d, e, f, g, h] =>
    let t1 := add32 h (add32 (bigSigma1 e) (add32 (shaCh e f g) (add32 kw.1 kw.2)))
    let t2 := add32 (bigSigma0 a) (shaMaj a b c)
    [add32 t1 t2, a, b, c, add32 d t1, e, f, g]
  | _ => st

/-- Compression of one 64-byte block into the running hash value. -/
def shaCompressBlock (h : List Nat) (block : List Nat) : List Nat :=
  let w := shaExtend (bytesToWords block) 48
  let st := (List.zip shaK w).foldl shaRound h
  List.zipWith add32 h st

/-- Folds SHA-256 compression over the 64-byte blocks of a padded message.
The first argument is the number of blocks still to process; padding makes
the byte count an exact multiple of 64 and the block count is passed as
`length / 64`. -/
def shaBlocks : Nat → List Nat → List Nat → List Nat
  | 0, h, _ => h
  | _ + 1, h, [] => h
  | n + 1, h, l => shaBlocks n (shaCompressBlock h (l.take 64)) (l.drop 64)

/-- Big-endian bytes of a list of 32-bit words. -/
def wordsToBytes (l : List Nat) : List Nat :=
  (l.map (fun w => [w / 16777216 % 256, w / 65536 % 256, w / 256 % 256, w % 256])).flatten

/-- Modelled from the spec: SHA-256 of a byte string (FIPS 180-4), the digest
computed by the external `hmac_sha256::Hash` that `hmac_sha256.rs` updates
byte-by-byte and finalizes. -/
def sha256 (msg : List Nat) : List Nat :=
  wordsToBytes (shaBlocks ((sha256Pad msg).length / 64) shaH0 (sha256Pad msg))

/-- Modelled from the spec: HMAC-SHA256 (RFC 2104 with SHA-256, block size 64)
— the MAC that the spec's §4.4 table prescribes for the `HMAC-SHA256`
signature method. -/
def hmacSha256 (key msg : List Nat) : List Nat :=
  let k0 := if 64 < key.length then sha256 key else key
  let kp := k0 ++ List.replicate (64 - k0.length) 0
  sha256 ((kp.map (fun b => b ^^^ 0x5c)) ++ sha256 ((kp.map (fun b => b ^^^ 0x36)) ++ msg))

/-! ## Base64

`Base64PercentEncodeDisplay` lives in `digest_common.rs`, which is not among
the sources; per the spec, the signature renders as the percent-encoding of
the standard base64 (with padding) of the digest bytes. -/

/-- The standard base64 alphabet. -/
def base64Char (n : Nat) : Char :=
  if n < 26 then Char.ofNat (65 + n)
  else if n < 52 then Char.ofNat (97 + n - 26)
  else if n < 62 then Char.ofNat (48 + n - 52)
  else if n = 62 then '+' else '/'

/-- Base64 encoding of a byte list, three bytes at a time, with `=` padding. -/
def base64Chunks : List Nat → List Char
  | a :: b :: c :: rest =>
    let n := (a * 256 + b) * 256 + c
    base64Char (n / 262144) :: base64Char (n / 4096 % 64) ::
      base64Char (n / 64 % 64) :: base64Char (n % 64) :: base64Chunks rest
  | [a, b] =>
    let n := (a * 256 + b) * 256
    [base64Char (n / 262144), base64Char (n / 4096 % 64), base64Char (n / 64 % 64), '=']
  | [a] =>
    let n := a * 65536
    [base64Char (n / 262144), base64Char (n / 4096 % 64), '=', '=']
  | [] => []

/-- Modelled from the spec: base64 rendering of a digest, as produced by the
missing `digest_common.rs` before percent-encoding. -/
def base64Encode (bs : List Nat) : String :=
  String.mk (base64Chunks bs)

/-! ## The `HMAC-SHA256` signature method (`hmac_sha256.rs`)

`HmacSha256::sign_with` creates a `SigningKey` — a fresh `hmac_sha256::Hash`
— and writes the signing-key text into it; `into_hmac` returns that very
hasher, so the subsequent base-string bytes are appended to the same digest
input.  The state is therefore the list of bytes fed to the hash so far.
The base-string token feeding (`UpdateSign`, in the missing
`digest_common.rs`) is modelled from the spec §4.4: the hash is fed, in
order, `METHOD`, `"&"`, `encode(URI)`, `"&"`, then for each parameter
`encode(key)`, `"%3D"`, `encode(encode(value))`, separated by `"%26"`. -/

/-- Per-request state of the `HMAC-SHA256` method: the bytes fed so far to
the underlying `hmac_sha256::Hash`. -/
structure HmacSha256Sign where
  inner : List Nat
deriving DecidableEq

/-- Embeds `HmacSha256::sign_with`: a fresh `SigningKey` hash is fed the signing-key
text written by `write_signing_key`, then becomes the digest state. -/
def HmacSha256.sign_with (client_secret : String) (token_secret : Option String) :
    HmacSha256Sign :=
  ⟨utf8 (write_signing_key "" client_secret token_secret)⟩

/-- Embeds `Sign::get_signature_method_name` for `HmacSha256Sign`. -/
def HmacSha256Sign.get_signature_method_name (_ : HmacSha256Sign) : String :=
  "HMAC-SHA256"

/-- Modelled from the spec: `request_method` feeds the HTTP method bytes. -/
def HmacSha256Sign.request_method (s : HmacSha256Sign) (method : String) :
    HmacSha256Sign :=
  ⟨s.inner ++ utf8 method⟩

/-- Modelled from the spec: `uri` feeds `"&"`, the percent-encoded URI, and
the second `"&"`. -/
def HmacSha256Sign.uri (s : HmacSha256Sign) (u : String) : HmacSha256Sign :=
  ⟨s.inner ++ utf8 ("&" ++ percentEncode u ++ "&")⟩

/-- Modelled from the spec: `delimiter` feeds the doubly-encoded separator
`"%26"` between parameters. -/
def HmacSha256Sign.delimiter (s : HmacSha256Sign) : HmacSha256Sign :=
  ⟨s.inner ++ utf8 "%26"⟩

/-- Modelled from the spec: `parameter` feeds `encode(key)`, `"%3D"`, and
the doubly-encoded value. -/
def HmacSha256Sign.parameter (s : HmacSha256Sign) (key value : String) :
    HmacSha256Sign :=
  ⟨s.inner ++ utf8 (percentEncode key ++ "%3D" ++ percentEncode (percentEncode value))⟩

/-- Embeds `HmacSha256Sign::end` finalizes the hash — SHA-256 of everything fed,
signing key included — and renders the digest as percent-encoded base64. -/
def HmacSha256Sign.end_ (s : HmacSha256Sign) : String :=
  percentEncode (base64Encode (sha256 s.inner))

/-- Feeds the parameters after the first one, each preceded by `delimiter`. -/
def HmacSha256Sign.paramsTail (s : HmacSha256Sign) :
    List (String × String) → HmacSha256Sign
  | [] => s
  | p :: ps => HmacSha256Sign.paramsTail ((s.delimiter).parameter p.1 p.2) ps

/-- Feeds a whole parameter list, with `delimiter` between parameters. -/
def HmacSha256Sign.params (s : HmacSha256Sign) :
    List (String × String) → HmacSha256Sign
  | [] => s
  | p :: ps => HmacSha256Sign.paramsTail (s.parameter p.1 p.2) ps

/-- The complete signature produced by the built-in `HMAC-SHA256` method for
a request: `sign_with`, then `request_method`, `uri`, the parameter calls,
and `end`. -/
def hmacSha256Run (client_secret : String) (token_secret : Option String)
    (method uriStr : String) (params : List (String × String)) : String :=
  (((HmacSha256.sign_with client_secret token_secret).request_method
      method).uri uriStr |>.params params).end_

/-! The reference semantics the claim states, written from the spec's words:
the signature base string of §6 and the HMAC-SHA256 MAC keyed with the
signing key. -/

/-- Modelled from the spec: the parameter string — ampersand-joined
`encode(key)=encode(value)` pairs (spec §6). -/
def paramStringSpec (params : List (String × String)) : String :=
  String.intercalate "&"
    (params.map (fun p => percentEncode p.1 ++ "=" ++ percentEncode p.2))

/-- Modelled from the spec: the signature base string
`METHOD & encode(URI) & encode(parameter_string)` (spec §6). -/
def signatureBaseStringSpec (method uriStr : String)
    (params : List (String × String)) : String :=
  method ++ "&" ++ percentEncode uriStr ++ "&" ++
    percentEncode (paramStringSpec params)

/-- Modelled from the spec: the signature the claim asserts: percent-encoded
base64 of the HMAC-SHA256 MAC keyed with the signing key over the signature
base string. -/
def hmacSha256SpecSignature (client_secret : String) (token_secret : Option String)
    (method uriStr : String) (params : List (String × String)) : String :=
  percentEncode (base64Encode (hmacSha256
    (utf8 (write_signing_key "" client_secret token_secret))
    (utf8 (signatureBaseStringSpec method uriStr params))))

/-! ## The `PLAINTEXT` signature method (`plaintext.rs`) -/

/-- Embeds `PlaintextSign`: holds only the signing key written at `sign_with`. -/
structure PlaintextSign where
  signing_key : String
deriving DecidableEq

/-- Embeds `Plaintext::sign_with` writes the signing key into a fresh buffer. -/
def Plaintext.sign_with (client_secret : String) (token_secret : Option String) :
    PlaintextSign :=
  ⟨write_signing_key "" client_secret token_secret⟩

/-- Embeds `Sign::get_signature_method_name` for `PlaintextSign`. -/
def PlaintextSign.get_signature_method_name (_ : PlaintextSign) : String :=
  "PLAINTEXT"

/-- Embeds `PlaintextSign::request_method` is a no-op. -/
def PlaintextSign.request_method (s : PlaintextSign) (_method : String) :
    PlaintextSign := s

/-- Embeds `PlaintextSign::uri` is a no-op. -/
def PlaintextSign.uri (s : PlaintextSign) (_uri : String) : PlaintextSign := s

/-- Embeds `PlaintextSign::parameter` is a no-op. -/
def PlaintextSign.parameter (s : PlaintextSign) (_key _value : String) :
    PlaintextSign := s

/-- Embeds `PlaintextSign::delimiter` is a no-op. -/
def PlaintextSign.delimiter (s : PlaintextSign) : PlaintextSign := s

/-- Embeds `PlaintextSign::end` returns the signing key verbatim. -/
def PlaintextSign.end_ (s : PlaintextSign) : String := s.signing_key

/-- One call of the `Sign` state-machine interface, for quantifying over
arbitrary call sequences made before `end()`. -/
inductive SignCall where
  | requestMethod (m : String)
  | uriCall (u : String)
  | delim
  | param (k v : String)

/-- Dispatch of one `Sign` call to the `PLAINTEXT` state. -/
def plaintextStep (s : PlaintextSign) (c : SignCall) : PlaintextSign :=
  match c with
  | SignCall.requestMethod m => s.request_method m
  | SignCall.uriCall u => s.uri u
  | SignCall.delim => s.delimiter
  | SignCall.param k v => s.parameter k v

/-! ## The `Urlencoder` serializer (`serializer/urlencode.rs`) -/

/-- The pending-delimiter state of a `Urlencoder`. -/
inductive Append where
  | none
  | question
  | ampersand
deriving DecidableEq

/-- A `Urlencoder`: the accumulated output and the delimiter to prepend
before the next parameter. -/
structure Urlencoder where
  data : String
  next_append : Append
deriving DecidableEq

/-- Embeds `Urlencoder::form`: empty buffer, no first delimiter. -/
def Urlencoder.form : Urlencoder := ⟨"", Append.none⟩

/-- Embeds `Urlencoder::query`: buffer starts as the URI, first delimiter `?`. -/
def Urlencoder.query (uri : String) : Urlencoder := ⟨uri, Append.question⟩

/-- Embeds `Urlencoder::append_delim`. -/
def Urlencoder.append_delim (u : Urlencoder) : Urlencoder :=
  match u.next_append with
  | Append.none => ⟨u.data, Append.ampersand⟩
  | Append.question => ⟨u.data ++ "?", Append.ampersand⟩
  | Append.ampersand => ⟨u.data ++ "&", Append.ampersand⟩

/-- Embeds `Urlencoder::serialize_parameter`: delimiter, then `key=percent(value)`. -/
def Urlencoder.serialize_parameter (u : Urlencoder) (k v : String) : Urlencoder :=
  let u := u.append_delim
  ⟨u.data ++ k ++ "=" ++ percentEncode v, u.next_append⟩

/-- Embeds `Urlencoder::serialize_parameter_encoded`: delimiter, then `key=value`
with the value written as given. -/
def Urlencoder.serialize_parameter_encoded (u : Urlencoder) (k v : String) :
    Urlencoder :=
  let u := u.append_delim
  ⟨u.data ++ k ++ "=" ++ v, u.next_append⟩

/-- Embeds `Urlencoder::end` returns the accumulated buffer. -/
def Urlencoder.end_ (u : Urlencoder) : String := u.data

/-- Embeds `serialize_oauth_callback` for `Urlencoder`: a no-op, generated by
`skip_serialize_oauth_parameters!`. -/
def Urlencoder.serialize_oauth_callback (u : Urlencoder) : Urlencoder := u

/-- Embeds `serialize_oauth_consumer_key` for `Urlencoder`: a no-op. -/
def Urlencoder.serialize_oauth_consumer_key (u : Urlencoder) : Urlencoder := u

/-- Embeds `serialize_oauth_nonce` for `Urlencoder`: a no-op. -/
def Urlencoder.serialize_oauth_nonce (u : Urlencoder) : Urlencoder := u

/-- Embeds `serialize_oauth_signature_method` for `Urlencoder`: a no-op. -/
def Urlencoder.serialize_oauth_signature_method (u : Urlencoder) : Urlencoder := u

/-- Embeds `serialize_oauth_timestamp` for `Urlencoder`: a no-op. -/
def Urlencoder.serialize_oauth_timestamp (u : Urlencoder) : Urlencoder := u

/-- Embeds `serialize_oauth_token` for `Urlencoder`: a no-op. -/
def Urlencoder.serialize_oauth_token (u : Urlencoder) : Urlencoder := u

/-- Embeds `serialize_oauth_verifier` for `Urlencoder`: a no-op. -/
def Urlencoder.serialize_oauth_verifier (u : Urlencoder) : Urlencoder := u

/-- Embeds `serialize_oauth_version` for `Urlencoder`: a no-op. -/
def Urlencoder.serialize_oauth_version (u : Urlencoder) : Urlencoder := u

/-- One user parameter as submitted to a serializer: via
`serialize_parameter_encoded` when `encoded` is true, else via
`serialize_parameter`. -/
structure Param where
  encoded : Bool
  key : String
  value : String

/-- Submits one parameter to a `Urlencoder` through the call named by its
`encoded` flag. -/
def Urlencoder.serializeOne (u : Urlencoder) (p : Param) : Urlencoder :=
  if p.encoded then u.serialize_parameter_encoded p.key p.value
  else u.serialize_parameter p.key p.value

/-- Drives a `Urlencoder` with a sequence of parameters. -/
def Urlencoder.run (u : Urlencoder) (ps : List Param) : Urlencoder :=
  ps.foldl Urlencoder.serializeOne u

/-- The `key=value_maybe_encoded` text one parameter contributes. -/
def Param.rendered (p : Param) : String :=
  p.key ++ "=" ++ (if p.encoded then p.value else percentEncode p.value)

/-- The contributions of every parameter after the first, each preceded by
`&`. -/
def tailJoin : List Param → String
  | [] => ""
  | p :: ps => "&" ++ p.rendered ++ tailJoin ps

/-- The `&`-joined `key=value` pairs of a parameter list. -/
def ampJoin : List Param → String
  | [] => ""
  | p :: ps => p.rendered ++ tailJoin ps

/-! ## The generic `Serializer` hooks (`serializer.rs`) -/

/-- The eight per-parameter OAuth hooks of the `Serializer` trait, for an
arbitrary serializer with state type `σ`. -/
structure SerializerOps (σ : Type) where
  serialize_oauth_callback : σ → σ
  serialize_oauth_consumer_key : σ → σ
  serialize_oauth_nonce : σ → σ
  serialize_oauth_signature_method : σ → σ
  serialize_oauth_timestamp : σ → σ
  serialize_oauth_token : σ → σ
  serialize_oauth_verifier : σ → σ
  serialize_oauth_version : σ → σ

/-- Embeds `SerializerExt::serialize_oauth_parameters` (serializer.rs lines
163-174): the aggregate hook, calling the eight `serialize_oauth_*` hooks in
the source's order. -/
def serialize_oauth_parameters {σ : Type} (ops : SerializerOps σ) (s : σ) : σ :=
  ops.serialize_oauth_version (ops.serialize_oauth_verifier
    (ops.serialize_oauth_token (ops.serialize_oauth_timestamp
      (ops.serialize_oauth_signature_method (ops.serialize_oauth_nonce
        (ops.serialize_oauth_consumer_key (ops.serialize_oauth_callback s)))))))

/-- A name for each `serialize_oauth_*` hook of the `Serializer` trait. -/
inductive OauthHook where
  | callback
  | consumerKey
  | nonce
  | signatureMethod
  | timestamp
  | token
  | verifier
  | version
deriving DecidableEq

/-- Applies the named hook of a serializer to its state. -/
def applyHook {σ : Type} (ops : SerializerOps σ) : OauthHook → σ → σ
  | OauthHook.callback, s => ops.serialize_oauth_callback s
  | OauthHook.consumerKey, s => ops.serialize_oauth_consumer_key s
  | OauthHook.nonce, s => ops.serialize_oauth_nonce s
  | OauthHook.signatureMethod, s => ops.serialize_oauth_signature_method s
  | OauthHook.timestamp, s => ops.serialize_oauth_timestamp s
  | OauthHook.token, s => ops.serialize_oauth_token s
  | OauthHook.verifier, s => ops.serialize_oauth_verifier s
  | OauthHook.version, s => ops.serialize_oauth_version s

/-- The hook order fixed by `serialize_oauth_parameters`. -/
def hookCallOrder : List OauthHook :=
  [OauthHook.callback, OauthHook.consumerKey, OauthHook.nonce,
   OauthHook.signatureMethod, OauthHook.timestamp, OauthHook.token,
   OauthHook.verifier, OauthHook.version]

/-- An instrumented serializer whose state records the hooks called, in
order. -/
def traceOps : SerializerOps (List OauthHook) where
  serialize_oauth_callback := fun l => l ++ [OauthHook.callback]
  serialize_oauth_consumer_key := fun l => l ++ [OauthHook.consumerKey]
  serialize_oauth_nonce := fun l => l ++ [OauthHook.nonce]
  serialize_oauth_signature_method := fun l => l ++ [OauthHook.signatureMethod]
  serialize_oauth_timestamp := fun l => l ++ [OauthHook.timestamp]
  serialize_oauth_token := fun l => l ++ [OauthHook.token]
  serialize_oauth_verifier := fun l => l ++ [OauthHook.verifier]
  serialize_oauth_version := fun l => l ++ [OauthHook.version]

/-- The `Urlencoder` instance of the eight hooks. -/
def urlencoderOps : SerializerOps Urlencoder where
  serialize_oauth_callback := Urlencoder.serialize_oauth_callback
  serialize_oauth_consumer_key := Urlencoder.serialize_oauth_consumer_key
  serialize_oauth_nonce := Urlencoder.serialize_oauth_nonce
  serialize_oauth_signature_method := Urlencoder.serialize_oauth_signature_method
  serialize_oauth_timestamp := Urlencoder.serialize_oauth_timestamp
  serialize_oauth_token := Urlencoder.serialize_oauth_token
  serialize_oauth_verifier := Urlencoder.serialize_oauth_verifier
  serialize_oauth_version := Urlencoder.serialize_oauth_version

/-! ## Credentials, Options, and the `Builder` façade (`lib.rs`) -/

/-- The credentials pair of `lib.rs`. -/
structure Credentials (T : Type) where
  identifier : T
  secret : T
deriving DecidableEq

/-- Embeds `Credentials::new`. -/
def Credentials.new {T : Type} (identifier secret : T) : Credentials T :=
  ⟨identifier, secret⟩

/-- The `Debug` rendering of a `Credentials` (lib.rs lines 315-329): a
`debug_struct` naming both fields, with the identifier rendered by its own
`Debug` implementation — abstracted as the `render` argument — and the
secret position filled by the fixed placeholder `<hidden>`; the secret value
is never consulted. -/
def Credentials.debugFmt {T : Type} (c : Credentials T) (render : T → String) :
    String :=
  "Credentials \x7b identifier: " ++ render c.identifier ++
    ", secret: <hidden> \x7d"

/-- Substring containment on strings, via character lists. -/
def strContains (hay pat : String) : Prop :=
  pat.data <:+: hay.data

instance (hay pat : String) : Decidable (strContains hay pat) :=
  inferInstanceAs (Decidable (pat.data <:+: hay.data))

/-- Modelled from the spec: `auth::Options` (spec §3) — `callback`, `nonce`,
`verifier` optional text, `timestamp` optional unsigned 64-bit integer,
`version` boolean defaulting to false; `serializer/auth.rs` is not among the
sources. -/
structure Options where
  callback : Option String
  nonce : Option String
  timestamp : Option Nat
  verifier : Option String
  version : Bool
deriving DecidableEq

/-- Embeds `Options::new`: everything unset. -/
def Options.new : Options := ⟨none, none, none, none, false⟩

/-- Modelled from the spec: `Options::callback` sets/unsets that field. -/
def Options.set_callback (o : Options) (c : Option String) : Options :=
  { o with callback := c }

/-- Modelled from the spec: `Options::nonce` sets/unsets that field. -/
def Options.set_nonce (o : Options) (n : Option String) : Options :=
  { o with nonce := n }

/-- Modelled from the spec: `Options::timestamp` sets/unsets that field. -/
def Options.set_timestamp (o : Options) (t : Option Nat) : Options :=
  { o with timestamp := t }

/-- Modelled from the spec: `Options::verifier` sets/unsets that field. -/
def Options.set_verifier (o : Options) (v : Option String) : Options :=
  { o with verifier := v }

/-- Modelled from the spec: `Options::version` sets that flag. -/
def Options.set_version (o : Options) (v : Bool) : Options :=
  { o with version := v }

/-- The `Builder` of `lib.rs`: signature method, client credentials,
optional token credentials, options. -/
structure Builder (SM T : Type) where
  signature_method : SM
  client : Credentials T
  token : Option (Credentials T)
  options : Options

/-- Embeds `Builder::new`. -/
def Builder.new {SM T : Type} (client : Credentials T) (signature_method : SM) :
    Builder SM T :=
  ⟨signature_method, client, none, Options.new⟩

/-- Embeds `Builder::token` (named `set_token` here, the field keeping the source
name): replaces the token credentials. -/
def Builder.set_token {SM T : Type} (b : Builder SM T)
    (t : Option (Credentials T)) : Builder SM T :=
  { b with token := t }

/-- Embeds `Builder::callback`: delegates to `Options::callback`. -/
def Builder.set_callback {SM T : Type} (b : Builder SM T) (c : Option String) :
    Builder SM T :=
  { b with options := b.options.set_callback c }

/-- Embeds `Builder::nonce`: delegates to `Options::nonce`. -/
def Builder.set_nonce {SM T : Type} (b : Builder SM T) (n : Option String) :
    Builder SM T :=
  { b with options := b.options.set_nonce n }

/-- Embeds `Builder::timestamp`: delegates to `Options::timestamp`. -/
def Builder.set_timestamp {SM T : Type} (b : Builder SM T) (t : Option Nat) :
    Builder SM T :=
  { b with options := b.options.set_timestamp t }

/-- Embeds `Builder::verifier`: delegates to `Options::verifier`. -/
def Builder.set_verifier {SM T : Type} (b : Builder SM T) (v : Option String) :
    Builder SM T :=
  { b with options := b.options.set_verifier v }

/-- Embeds `Builder::version`: delegates to `Options::version`. -/
def Builder.set_version {SM T : Type} (b : Builder SM T) (v : Bool) :
    Builder SM T :=
  { b with options := b.options.set_version v }

/-- Embeds `Builder::consume`: builds an `Authorizer` from the signature method,
method string, URI, borrowed credentials and options, and lets the request
serialize itself with it.  `serializer/auth.rs` and the `Request` driver are
not among the sources, so the authorizer construction plus
`request.serialize` is abstracted as the `authorize` argument, applied to
exactly the data `consume` passes. -/
def Builder.consume {SM T : Type}
    (authorize : SM → String → String → Credentials T →
      Option (Credentials T) → Options → String)
    (b : Builder SM T) (method uriStr : String) : String :=
  authorize b.signature_method method uriStr b.client b.token b.options

/-- The free function `oauth::get` (lib.rs lines 331-347). -/
def get {SM T : Type}
    (authorize : SM → String → String → Credentials T →
      Option (Credentials T) → Options → String)
    (signature_method : SM) (uriStr : String) (client : Credentials T)
    (token : Option (Credentials T)) : String :=
  let builder := Builder.new client signature_method
  let builder := builder.set_token token
  builder.consume authorize "GET" uriStr

/-- The free function `oauth::put`. -/
def put {SM T : Type}
    (authorize : SM → String → String → Credentials T →
      Option (Credentials T) → Options → String)
    (signature_method : SM) (uriStr : String) (client : Credentials T)
    (token : Option (Credentials T)) : String :=
  let builder := Builder.new client signature_method
  let builder := builder.set_token token
  builder.consume authorize "PUT" uriStr

/-- The free function `oauth::post`. -/
def post {SM T : Type}
    (authorize : SM → String → String → Credentials T →
      Option (Credentials T) → Options → String)
    (signature_method : SM) (uriStr : String) (client : Credentials T)
    (token : Option (Credentials T)) : String :=
  let builder := Builder.new client signature_method
  let builder := builder.set_token token
  builder.consume authorize "POST" uriStr

/-- The free function `oauth::delete`. -/
def delete {SM T : Type}
    (authorize : SM → String → String → Credentials T →
      Option (Credentials T) → Options → String)
    (signature_method : SM) (uriStr : String) (client : Credentials T)
    (token : Option (Credentials T)) : String :=
  let builder := Builder.new client signature_method
  let builder := builder.set_token token
  builder.consume authorize "DELETE" uriStr

/-- The free function `oauth::options`. -/
def options {SM T : Type}
    (authorize : SM → String → String → Credentials T →
      Option (Credentials T) → Options → String)
    (signature_method : SM) (uriStr : String) (client : Credentials T)
    (token : Option (Credentials T)) : String :=
  let builder := Builder.new client signature_method
  let builder := builder.set_token token
  builder.consume authorize "OPTIONS" uriStr

/-- The free function `oauth::head`. -/
def head {SM T : Type}
    (authorize : SM → String → String → Credentials T →
      Option (Credentials T) → Options → String)
    (signature_method : SM) (uriStr : String) (client : Credentials T)
    (token : Option (Credentials T)) : String :=
  let builder := Builder.new client signature_method
  let builder := builder.set_token token
  builder.consume authorize "HEAD" uriStr

/-- The free function `oauth::connect`. -/
def connect {SM T : Type}
    (authorize : SM → String → String → Credentials T →
      Option (Credentials T) → Options → String)
    (signature_method : SM) (uriStr : String) (client : Credentials T)
    (token : Option (Credentials T)) : String :=
  let builder := Builder.new client signature_method
  let builder := builder.set_token token
  builder.consume authorize "CONNECT" uriStr

/-- The free function `oauth::patch`. -/
def patch {SM T : Type}
    (authorize : SM → String → String → Credentials T →
      Option (Credentials T) → Options → String)
    (signature_method : SM) (uriStr : String) (client : Credentials T)
    (token : Option (Credentials T)) : String :=
  let builder := Builder.new client signature_method
  let builder := builder.set_token token
  builder.consume authorize "PATCH" uriStr

/-- The free function `oauth::trace`. -/
def trace {SM T : Type}
    (authorize : SM → String → String → Credentials T →
      Option (Credentials T) → Options → String)
    (signature_method : SM) (uriStr : String) (client : Credentials T)
    (token : Option (Credentials T)) : String :=
  let builder := Builder.new client signature_method
  let builder := builder.set_token token
  builder.consume authorize "TRACE" uriStr

/-! ## Helper lemmas -/

/-- Every `Sign` call is the identity on the `PLAINTEXT` state. -/
theorem plaintextStep_eq (s : PlaintextSign) (c : SignCall) :
    plaintextStep s c = s := by
  cases c <;> rfl

/-- Folding any `Sign` call sequence leaves the `PLAINTEXT` state unchanged. -/
theorem foldl_plaintextStep (l : List SignCall) :
    ∀ s : PlaintextSign, l.foldl plaintextStep s = s := by
  induction l with
  | nil => intro s; rfl
  | cons c l ih => intro s; rw [List.foldl_cons, plaintextStep_eq]; exact ih s

/-- Each OAuth hook of `urlencoderOps` is the identity. -/
theorem applyHook_urlencoderOps (h : OauthHook) (u : Urlencoder) :
    applyHook urlencoderOps h u = u := by
  cases h <;> rfl

/-- Submitting one parameter to a `Urlencoder` in the `Ampersand` state
appends `&` and the rendered pair, staying in the `Ampersand` state. -/
theorem serializeOne_ampersand (d : String) (p : Param) :
    Urlencoder.serializeOne ⟨d, Append.ampersand⟩ p =
      ⟨d ++ ("&" ++ p.rendered), Append.ampersand⟩ := by
  cases hp : p.encoded <;>
    simp [Urlencoder.serializeOne, Urlencoder.serialize_parameter,
      Urlencoder.serialize_parameter_encoded, Urlencoder.append_delim,
      Param.rendered, hp, String.append_assoc]

/-- Running a parameter list from the `Ampersand` state appends `&`-led
rendered pairs. -/
theorem urlencoder_run_ampersand (ps : List Param) :
    ∀ d : String, Urlencoder.run ⟨d, Append.ampersand⟩ ps =
      ⟨d ++ tailJoin ps, Append.ampersand⟩ := by
  induction ps with
  | nil => intro d; simp [Urlencoder.run, tailJoin, String.append_empty]
  | cons p ps ih =>
    intro d
    show Urlencoder.run (Urlencoder.serializeOne ⟨d, Append.ampersand⟩ p) ps = _
    rw [serializeOne_ampersand, ih]
    simp [tailJoin, String.append_assoc]

/-! ## The claims -/

set_option maxRecDepth 100000 in
/-- C1.  The claim says the built-in `HMAC-SHA256` method signs with the
HMAC-SHA256 MAC keyed by the signing key.  The code feeds the signing key
and the base string into one plain `hmac_sha256::Hash`, so it renders the
percent-encoded base64 of `SHA256(signing_key ‖ base_string)` — at the
failing input `client_secret = "a"`, no token secret, method `GET`, URI
`http://x`, no parameters, this differs from the claimed HMAC-SHA256
signature over the very same signing key and base string. -/
theorem hmac_sha256_signs_with_plain_hash :
    hmacSha256Run "a" none "GET" "http://x" [] =
      percentEncode (base64Encode
        (sha256 (utf8 "a&" ++ utf8 "GET&http%3A%2F%2Fx&"))) ∧
    hmacSha256Run "a" none "GET" "http://x" [] ≠
      hmacSha256SpecSignature "a" none "GET" "http://x" [] := by
  constructor
  · decide
  · decide

/-- C2 (amended).  `serialize_oauth_parameters` calls exactly one of each of
the eight `serialize_oauth_*` hooks — not nine — in the fixed order
callback, consumer_key, nonce, signature_method, timestamp, token, verifier,
version: for every serializer it equals the fold of that hook list, and on
an instrumented serializer the recorded trace is exactly that list, which
has no duplicates. -/
theorem serialize_oauth_parameters_eight_hooks_in_order :
    (∀ (σ : Type) (ops : SerializerOps σ) (s : σ),
      serialize_oauth_parameters ops s =
        hookCallOrder.foldl (fun t h => applyHook ops h t) s) ∧
    serialize_oauth_parameters traceOps [] = hookCallOrder ∧
    hookCallOrder.Nodup ∧ hookCallOrder.length = 8 := by
  refine ⟨fun σ ops s => rfl, rfl, by decide, rfl⟩

/-- C2, counterexample to the claim as stated: the aggregate results in
eight hook calls, never nine — the instrumented trace does not have length
nine. -/
theorem serialize_oauth_parameters_not_nine_hooks :
    ¬(serialize_oauth_parameters traceOps ([] : List OauthHook)).length = 9 := by
  decide

/-- C3.  The `PLAINTEXT` signature: after `sign_with` and any sequence of
`request_method`/`uri`/`delimiter`/`parameter` calls, `end()` returns
`encode(client_secret) ++ "&" ++ encode(token_secret_or_empty)`. -/
theorem plaintext_signature_identity (client_secret : String)
    (token_secret : Option String) (calls : List SignCall) :
    (calls.foldl plaintextStep
        (Plaintext.sign_with client_secret token_secret)).end_ =
      percentEncode client_secret ++ "&" ++
        percentEncode (token_secret.getD "") := by
  rw [foldl_plaintextStep]
  show write_signing_key "" client_secret token_secret = _
  simp [write_signing_key, String.empty_append]

/-- C4.  A `query`-constructed `Urlencoder` returns the URI, then `?` and
the `&`-joined pairs — the bare URI when there are no parameters — and a
`form`-constructed one returns the `&`-joined pairs with no leading
delimiter. -/
theorem urlencoder_query_form_output (uriStr : String) (ps : List Param) :
    (Urlencoder.run (Urlencoder.query uriStr) ps).end_ =
      (if ps.isEmpty then uriStr else uriStr ++ "?" ++ ampJoin ps) ∧
    (Urlencoder.run Urlencoder.form ps).end_ = ampJoin ps := by
  cases ps with
  | nil => exact ⟨rfl, rfl⟩
  | cons p ps =>
    constructor
    · show (Urlencoder.run
          (Urlencoder.serializeOne (Urlencoder.query uriStr) p) ps).end_ = _
      have hser : Urlencoder.serializeOne (Urlencoder.query uriStr) p =
          ⟨uriStr ++ "?" ++ p.rendered, Append.ampersand⟩ := by
        cases hp : p.encoded <;>
          simp [Urlencoder.serializeOne, Urlencoder.serialize_parameter,
            Urlencoder.serialize_parameter_encoded, Urlencoder.append_delim,
            Urlencoder.query, Param.rendered, hp, String.append_assoc]
      rw [hser, urlencoder_run_ampersand]
      simp [Urlencoder.end_, ampJoin, String.append_assoc]
    · show (Urlencoder.run
          (Urlencoder.serializeOne Urlencoder.form p) ps).end_ = _
      have hser : Urlencoder.serializeOne Urlencoder.form p =
          ⟨p.rendered, Append.ampersand⟩ := by
        cases hp : p.encoded <;>
          simp [Urlencoder.serializeOne, Urlencoder.serialize_parameter,
            Urlencoder.serialize_parameter_encoded, Urlencoder.append_delim,
            Urlencoder.form, Param.rendered, hp, String.empty_append,
            String.append_assoc]
      rw [hser, urlencoder_run_ampersand]
      simp [Urlencoder.end_, ampJoin]

/-- C5.  The signing-key writer appends
`encode(client_secret) ++ "&" ++ encode(token_secret_or_empty)` to the sink;
the `"&"` is always emitted, so with no token secret the written key ends in
`"&"`. -/
theorem write_signing_key_writes_key (sink client_secret : String)
    (token_secret : Option String) :
    write_signing_key sink client_secret token_secret =
      sink ++ (percentEncode client_secret ++ "&" ++
        percentEncode (token_secret.getD "")) ∧
    ∃ p, write_signing_key sink client_secret none = p ++ "&" := by
  constructor
  · simp [write_signing_key, String.append_assoc]
  · refine ⟨sink ++ percentEncode client_secret, ?_⟩
    show sink ++ percentEncode client_secret ++ "&" ++ percentEncode "" = _
    rw [show percentEncode "" = "" from rfl, String.append_empty]

/-- C6.  Submitting an already-percent-encoded value through
`serialize_parameter_encoded` produces exactly the serializer state that
`serialize_parameter` produces from the raw value, whenever the former is
the percent-encoding of the latter. -/
theorem serialize_parameter_encoded_idempotence (u : Urlencoder)
    (k raw : String) :
    u.serialize_parameter_encoded k (percentEncode raw) =
      u.serialize_parameter k raw := rfl

/-- C7.  Each of the eight `serialize_oauth_*` hooks of `Urlencoder` is a
no-op on the state (buffer and pending delimiter), so `end()` after any
sequence of hook calls equals `end()` without them. -/
theorem urlencoder_oauth_hooks_are_noops :
    (∀ (h : OauthHook) (u : Urlencoder), applyHook urlencoderOps h u = u) ∧
    ∀ (u : Urlencoder) (hs : List OauthHook),
      hs.foldl (fun s h => applyHook urlencoderOps h s) u = u ∧
      (hs.foldl (fun s h => applyHook urlencoderOps h s) u).end_ = u.end_ := by
  have h2 : ∀ (hs : List OauthHook) (u : Urlencoder),
      hs.foldl (fun s h => applyHook urlencoderOps h s) u = u := by
    intro hs
    induction hs with
    | nil => intro u; rfl
    | cons a l ih =>
      intro u
      rw [List.foldl_cons, applyHook_urlencoderOps]
      exact ih u
  exact ⟨applyHook_urlencoderOps, fun u hs => ⟨h2 hs u, by rw [h2 hs u]⟩⟩

/-- C8.  Each top-level free operation equals
`Builder::new(client, sm).token(token).consume(METHOD, uri, request)` with
its HTTP method string, for every signature method, credentials, URI and
request driver. -/
theorem free_functions_are_builder_consume :
    ∀ (SM T : Type)
      (authorize : SM → String → String → Credentials T →
        Option (Credentials T) → Options → String)
      (sm : SM) (uriStr : String) (client : Credentials T)
      (token : Option (Credentials T)),
      get authorize sm uriStr client token =
        Builder.consume authorize
          (Builder.set_token (Builder.new client sm) token) "GET" uriStr ∧
      put authorize sm uriStr client token =
        Builder.consume authorize
          (Builder.set_token (Builder.new client sm) token) "PUT" uriStr ∧
      post authorize sm uriStr client token =
        Builder.consume authorize
          (Builder.set_token (Builder.new client sm) token) "POST" uriStr ∧
      delete authorize sm uriStr client token =
        Builder.consume authorize
          (Builder.set_token (Builder.new client sm) token) "DELETE" uriStr ∧
      options authorize sm uriStr client token =
        Builder.consume authorize
          (Builder.set_token (Builder.new client sm) token) "OPTIONS" uriStr ∧
      head authorize sm uriStr client token =
        Builder.consume authorize
          (Builder.set_token (Builder.new client sm) token) "HEAD" uriStr ∧
      connect authorize sm uriStr client token =
        Builder.consume authorize
          (Builder.set_token (Builder.new client sm) token) "CONNECT" uriStr ∧
      patch authorize sm uriStr client token =
        Builder.consume authorize
          (Builder.set_token (Builder.new client sm) token) "PATCH" uriStr ∧
      trace authorize sm uriStr client token =
        Builder.consume authorize
          (Builder.set_token (Builder.new client sm) token) "TRACE" uriStr :=
  fun _ _ _ _ _ _ _ => ⟨rfl, rfl, rfl, rfl, rfl, rfl, rfl, rfl, rfl⟩

/-- C9 (amended).  The `Debug` rendering of a `Credentials` is identical for
any two secrets — the secret position holds the fixed placeholder and the
secret value is never consulted — though the rendering can still contain
the secret as a substring when the secret happens to occur in the fixed text
or in the identifier's rendering. -/
theorem credentials_debug_independent_of_secret :
    ∀ (T : Type) (render : T → String) (identifier s₁ s₂ : T),
      Credentials.debugFmt (Credentials.new identifier s₁) render =
        Credentials.debugFmt (Credentials.new identifier s₂) render :=
  fun _ _ _ _ _ => rfl

/-- C9, counterexample to "the rendering never contains the secret
substring": with secret `"hidden"`, the placeholder text itself contains the
secret. -/
theorem credentials_debug_contains_secret_substring :
    strContains
      (Credentials.debugFmt (Credentials.new "id" "hidden")
        (fun s => "\"" ++ s ++ "\""))
      "hidden" := by
  decide

/-- C10.  Every `Builder` mutator changes only its own field — the token
credentials or the named option — leaving the signature method, client
credentials and every other option untouched. -/
theorem builder_mutators_frame :
    ∀ (SM T : Type) (b : Builder SM T) (t : Option (Credentials T))
      (c n vf : Option String) (ts : Option Nat) (vv : Bool),
      ((b.set_token t).token = t ∧
        (b.set_token t).signature_method = b.signature_method ∧
        (b.set_token t).client = b.client ∧
        (b.set_token t).options = b.options) ∧
      ((b.set_callback c).options.callback = c ∧
        (b.set_callback c).options.nonce = b.options.nonce ∧
        (b.set_callback c).options.timestamp = b.options.timestamp ∧
        (b.set_callback c).options.verifier = b.options.verifier ∧
        (b.set_callback c).options.version = b.options.version ∧
        (b.set_callback c).signature_method = b.signature_method ∧
        (b.set_callback c).client = b.client ∧
        (b.set_callback c).token = b.token) ∧
      ((b.set_nonce n).options.nonce = n ∧
        (b.set_nonce n).options.callback = b.options.callback ∧
        (b.set_nonce n).options.timestamp = b.options.timestamp ∧
        (b.set_nonce n).options.verifier = b.options.verifier ∧
        (b.set_nonce n).options.version = b.options.version ∧
        (b.set_nonce n).signature_method = b.signature_method ∧
        (b.set_nonce n).client = b.client ∧
        (b.set_nonce n).token = b.token) ∧
      ((b.set_timestamp ts).options.timestamp = ts ∧
        (b.set_timestamp ts).options.callback = b.options.callback ∧
        (b.set_timestamp ts).options.nonce = b.options.nonce ∧
        (b.set_timestamp ts).options.verifier = b.options.verifier ∧
        (b.set_timestamp ts).options.version = b.options.version ∧
        (b.set_timestamp ts).signature_method = b.signature_method ∧
        (b.set_timestamp ts).client = b.client ∧
        (b.set_timestamp ts).token = b.token) ∧
      ((b.set_verifier vf).options.verifier = vf ∧
        (b.set_verifier vf).options.callback = b.options.callback ∧
        (b.set_verifier vf).options.nonce = b.options.nonce ∧
        (b.set_verifier vf).options.timestamp = b.options.timestamp ∧
        (b.set_verifier vf).options.version = b.options.version ∧
        (b.set_verifier vf).signature_method = b.signature_method ∧
        (b.set_verifier vf).client = b.client ∧
        (b.set_verifier vf).token = b.token) ∧
      ((b.set_version vv).options.version = vv ∧
        (b.set_version vv).options.callback = b.options.callback ∧
        (b.set_version vv).options.nonce = b.options.nonce ∧
        (b.set_version vv).options.timestamp = b.options.timestamp ∧
        (b.set_version vv).options.verifier = b.options.verifier ∧
        (b.set_version vv).signature_method = b.signature_method ∧
        (b.set_version vv).client = b.client ∧
        (b.set_version vv).token = b.token) :=
  fun _ _ _ _ _ _ _ _ _ =>
    ⟨⟨rfl, rfl, rfl, rfl⟩,
     ⟨rfl, rfl, rfl, rfl, rfl, rfl, rfl, rfl⟩,
     ⟨rfl, rfl, rfl, rfl, rfl, rfl, rfl, rfl⟩,
     ⟨rfl, rfl, rfl, rfl, rfl, rfl, rfl, rfl⟩,
     ⟨rfl, rfl, rfl, rfl, rfl, rfl, rfl, rfl⟩,
     ⟨rfl, rfl, rfl, rfl, rfl, rfl, rfl, rfl⟩⟩

end OAuth1
